import Mathlib

/-!
Verification of the core string/option/signing logic of the django-qr-code
repository, shallowly embedded in Lean.

Python strings are modelled as `List Char` (`PyStr`); Python `int` as `Int`;
Python `float`/`Decimal` as `ℚ` (a Python float denotes a rational number);
functions that can raise return `Except`/`Option`.
-/

set_option maxHeartbeats 1000000

deriving instance DecidableEq for Except

abbrev PyStr := List Char

/-- Coerce a Lean string literal to the `List Char` model of Python strings. -/
def ps (s : String) : PyStr := s.data

/-- Digit character for a value below ten, as Python renders decimal digits. -/
def digitChar (n : Nat) : Char := Char.ofNat (48 + n)

/-- Decimal digits of a natural number (fuel-driven so it reduces in the kernel);
models Python `str(n)` for `n ≥ 0`. -/
def natDigitsAux : Nat → Nat → List Char
  | 0, _ => []
  | fuel + 1, n => if n < 10 then [digitChar n] else natDigitsAux fuel (n / 10) ++ [digitChar (n % 10)]

/-- Decimal rendering of a natural number, models Python `str` on non-negative ints. -/
def natDigits (n : Nat) : PyStr := natDigitsAux (n + 1) n

/-- Models Python `str` on ints (`-` sign for negatives). -/
def intRepr : Int → PyStr := fun n => if n < 0 then '-' :: natDigits (-n).toNat else natDigits n.toNat

/-- Models Python `str.split(sep)` for a one-character separator: accumulator-based scan. -/
def splitOnCharAux (c : Char) : List Char → List Char → List (List Char)
  | [], acc => [acc.reverse]
  | x :: xs, acc => if x = c then acc.reverse :: splitOnCharAux c xs [] else splitOnCharAux c xs (x :: acc)

/-- Models Python `s.split(c)` (always returns a non-empty list of parts). -/
def splitOnChar (c : Char) (l : List Char) : List (List Char) := splitOnCharAux c l []

/-- Models Python `s.split(c)[-1]`: the text after the last separator. -/
def lastSplitComponent (c : Char) (l : List Char) : List Char := (splitOnChar c l).getLastD []

/-- Models Python `s.rsplit(c, 1)` when the separator occurs: split at the last occurrence.
Returns `none` when the separator does not occur at all. -/
def rsplitOnce (c : Char) : List Char → Option (List Char × List Char)
  | [] => none
  | x :: xs =>
    match rsplitOnce c xs with
    | some (a, b) => some (x :: a, b)
    | none => if x = c then some ([], xs) else none

/-- Models Python single-character `str.replace(c, repl)`: per-character expansion. -/
def pyReplace1 (c : Char) (repl : PyStr) (l : PyStr) : PyStr :=
  l.flatMap fun x => if x = c then repl else [x]

/-- Models Python `str.replace(p, repl)` for a two-character pattern, scanning
left to right over non-overlapping occurrences. -/
def pyReplace2 (c1 c2 : Char) (repl : PyStr) : PyStr → PyStr
  | [] => []
  | [x] => [x]
  | x :: y :: rest =>
    if x = c1 ∧ y = c2 then repl ++ pyReplace2 c1 c2 repl rest
    else x :: pyReplace2 c1 c2 repl (y :: rest)

/-- Models Python `str.lower()` (adequate for the ASCII option values used here). -/
def pyLower (l : PyStr) : PyStr := l.map Char.toLower

/-- Models Python `str.isdigit()` restricted to ASCII digits (non-empty, all digits). -/
def pyIsDigit (l : PyStr) : Bool := !l.isEmpty && l.all (·.isDigit)

/-- Numeric value of a digit string; models Python `int(s)` on digit strings. -/
def strToNat (l : PyStr) : Nat := l.foldl (fun acc c => 10 * acc + (c.toNat - 48)) 0

/-- Whether `pat` is a prefix of the second argument, as executable Bool scan. -/
def startsSeq : PyStr → PyStr → Bool
  | [], _ => true
  | _ :: _, [] => false
  | x :: xs, y :: ys => x = y && startsSeq xs ys

/-- Whether `pat` occurs as a contiguous substring; models Python `pat in s`. -/
def containsSeq (pat : PyStr) : PyStr → Bool
  | [] => startsSeq pat []
  | y :: ys => startsSeq pat (y :: ys) || containsSeq pat ys

-- Sanity examples for the helpers (concrete kernel evaluation).
example : natDigits 407 = ps "407" := by decide
example : intRepr (-35) = ps "-35" := by decide
example : splitOnChar '.' (ps "a.b.") = [ps "a", ps "b", ps ""] := by decide
example : lastSplitComponent '.' (ps "x.yz") = ps "yz" := by decide
example : rsplitOnce ':' (ps "a:b:c") = some (ps "a:b", ps "c") := by decide
example : pyReplace1 ';' (ps "\\;") (ps "a;b") = ps "a\\;b" := by decide
example : pyReplace2 '\r' '\n' (ps "\\n") (ps "x\r\ny") = ps "x\\ny" := by decide
example : containsSeq (ps "P:") (ps "WIFI:P:x;;") = true := by decide
example : strToNat (ps "052") = 52 := by decide

/-! ## RenderOptions data model (qr_code/qrcode/utils.py, QRCodeOptions) -/

/-- A raw Python value arriving at `QRCodeOptions.__init__` (query-string values are
strings; the view layer forces `micro`/`eci`/`boost_error` to bool; programmatic
callers may pass ints, floats/Decimals (modelled as rationals) or None). -/
inductive PyVal where
  | vInt (n : Int)
  | vFloat (q : ℚ)
  | vStr (s : PyStr)
  | vBool (b : Bool)
  | vNone
  deriving DecidableEq, Repr

/-- The validated `size` argument: `Union[int, float, str, Decimal, None]`. -/
inductive SizeVal where
  | i (n : Int)
  | f (q : ℚ)
  | s (st : PyStr)
  | none
  deriving DecidableEq, Repr

/-- The validated `version` argument: `Union[int, str, None]`. -/
inductive VersionVal where
  | i (n : Int)
  | s (st : PyStr)
  | none
  deriving DecidableEq, Repr

/-- A validated color argument: `Union[tuple, str, bool, None]` (tuples cannot
arrive from a query string and are not modelled). -/
inductive ColorVal where
  | s (st : PyStr)
  | b (bo : Bool)
  | none
  deriving DecidableEq, Repr

/-- The stored fields of `QRCodeOptions` after `__init__` ran (the leading
underscore of the Python attribute names is dropped; the public properties
use exactly these names). -/
structure QRCodeOptions where
  size : SizeVal
  border : Int
  version : VersionVal
  micro : Bool
  eci : Bool
  error_correction : PyStr
  boost_error : Bool
  encoding : Option PyStr
  image_format : PyStr
  colors : List (PyStr × ColorVal)
  deriving DecidableEq, Repr

/-- Constants from qr_code/qrcode/constants.py: SIZE_DICT as an association list. -/
def sizeDict : List (PyStr × ℚ) := [(ps "t", 6), (ps "s", 12), (ps "m", 18), (ps "l", 30), (ps "h", 48)]

def sizeDictLookup (key : PyStr) : Option ℚ :=
  (sizeDict.find? fun kv => kv.1 = key).map (·.2)

/-- DEFAULT_MODULE_SIZE = "m". -/
def defaultModuleSize : PyStr := ps "m"

/-- DEFAULT_ERROR_CORRECTION = "m". -/
def defaultErrorCorrection : PyStr := ps "m"

/-- DEFAULT_IMAGE_FORMAT = "svg". -/
def defaultImageFormat : PyStr := ps "svg"

/-- The arguments of `QRCodeOptions.__init__` after pydantic `@validate_call`
type validation succeeded, in signature order. -/
structure ValidatedArgs where
  size : SizeVal
  border : Int
  version : VersionVal
  image_format : PyStr
  error_correction : PyStr
  encoding : Option PyStr
  boost_error : Bool
  micro : Bool
  eci : Bool
  dark_color : ColorVal
  light_color : ColorVal
  finder_dark_color : ColorVal
  finder_light_color : ColorVal
  data_dark_color : ColorVal
  data_light_color : ColorVal
  version_dark_color : ColorVal
  version_light_color : ColorVal
  format_dark_color : ColorVal
  format_light_color : ColorVal
  alignment_dark_color : ColorVal
  alignment_light_color : ColorVal
  timing_dark_color : ColorVal
  timing_light_color : ColorVal
  separator_color : ColorVal
  dark_module_color : ColorVal
  quiet_zone_color : ColorVal
  deriving DecidableEq, Repr

/-- The default `ValidatedArgs` (the Python default argument values). -/
def defaultArgs : ValidatedArgs where
  size := .s (ps "m")
  border := 4
  version := .none
  image_format := ps "svg"
  error_correction := ps "m"
  encoding := some (ps "utf-8")
  boost_error := true
  micro := false
  eci := false
  dark_color := .s (ps "black")
  light_color := .s (ps "white")
  finder_dark_color := .b false
  finder_light_color := .b false
  data_dark_color := .b false
  data_light_color := .b false
  version_dark_color := .b false
  version_light_color := .b false
  format_dark_color := .b false
  format_light_color := .b false
  alignment_dark_color := .b false
  alignment_light_color := .b false
  timing_dark_color := .b false
  timing_light_color := .b false
  separator_color := .b false
  dark_module_color := .b false
  quiet_zone_color := .b false

/-- `_can_be_cast_to_int` applied to the (validated) version value:
`isinstance(value, int) or (isinstance(value, str) and value.isdigit())`. -/
def canBeCastToIntVersion : VersionVal → Bool
  | .i _ => true
  | .s st => pyIsDigit st
  | .none => false

/-- `_can_be_cast_to_int` applied to the (validated) size value. -/
def canBeCastToIntSize : SizeVal → Bool
  | .i _ => true
  | .s st => pyIsDigit st
  | _ => false

/-- Python `int(version)` on the values for which `_can_be_cast_to_int` is true. -/
def versionToInt : VersionVal → Int
  | .i n => n
  | .s st => (strToNat st : Int)
  | .none => 0

/-- Python `int(size)` on the values for which `_can_be_cast_to_int` is true. -/
def sizeToInt : SizeVal → Int
  | .i n => n
  | .s st => (strToNat st : Int)
  | _ => 0

/-- The micro-version tags accepted by `QRCodeOptions.__init__`. -/
def microTags : List PyStr :=
  [ps "m1", ps "m2", ps "m3", ps "m4", ps "M1", ps "M2", ps "M3", ps "M4"]

/-- The body of `QRCodeOptions.__init__` (utils.py lines 148-199), acting on the
type-validated arguments: version/micro coercion, error-correction, encoding and
image-format coercion, raw storage of size/border, color dict assembly. -/
def initCore (a : ValidatedArgs) : QRCodeOptions :=
  let vm : VersionVal × Bool :=
    if canBeCastToIntVersion a.version then
      let v := versionToInt a.version
      if 1 ≤ v ∧ v ≤ 40 then (.i v, a.micro) else (.none, a.micro)
    else
      match a.version with
      | .s st => if st ∈ microTags then (.s (pyLower st), true) else (.none, a.micro)
      | _ => (.none, a.micro)
  let ec := pyLower a.error_correction
  let ec := if ec = ps "l" ∨ ec = ps "m" ∨ ec = ps "q" ∨ ec = ps "h" then ec else defaultErrorCorrection
  let enc : Option PyStr := match a.encoding with
    | some st => if st = [] then Option.none else some st
    | Option.none => Option.none
  let fmt := pyLower a.image_format
  let fmt := if fmt = ps "svg" ∨ fmt = ps "png" then fmt else defaultImageFormat
  { size := a.size
    border := a.border
    version := vm.1
    micro := vm.2
    eci := a.eci
    error_correction := ec
    boost_error := a.boost_error
    encoding := enc
    image_format := fmt
    colors :=
      [ (ps "dark_color", a.dark_color), (ps "light_color", a.light_color),
        (ps "finder_dark_color", a.finder_dark_color), (ps "finder_light_color", a.finder_light_color),
        (ps "data_dark_color", a.data_dark_color), (ps "data_light_color", a.data_light_color),
        (ps "version_dark_color", a.version_dark_color), (ps "version_light_color", a.version_light_color),
        (ps "format_dark_color", a.format_dark_color), (ps "format_light_color", a.format_light_color),
        (ps "alignment_dark_color", a.alignment_dark_color), (ps "alignment_light_color", a.alignment_light_color),
        (ps "timing_dark_color", a.timing_dark_color), (ps "timing_light_color", a.timing_light_color),
        (ps "separator_color", a.separator_color), (ps "dark_module_color", a.dark_module_color),
        (ps "quiet_zone_color", a.quiet_zone_color) ] }

/-- The default `QRCodeOptions()` (all arguments at their defaults). -/
def defaultQRCodeOptions : QRCodeOptions := initCore defaultArgs

/-- `QRCodeOptions._size_as_number` result: an int/float scale, or — through the
`SIZE_DICT.get(..., DEFAULT_MODULE_SIZE)` default — the string "m" itself. -/
inductive SizeNum where
  | num (q : ℚ)
  | st (s : PyStr)
  deriving DecidableEq, Repr

/-- `QRCodeOptions._size_as_number` (utils.py lines 241-259). -/
def sizeAsNumber (o : QRCodeOptions) : SizeNum :=
  if canBeCastToIntSize o.size then
    let n := sizeToInt o.size
    if n < 1 then .num 18 else .num n
  else
    match o.size with
    | .f q => if q < mkRat 1 100 then .num 18 else .num q
    | .s st =>
      match sizeDictLookup (pyLower st) with
      | some k => .num k
      | Option.none => .st defaultModuleSize
    | _ => .num 18

example : sizeAsNumber (initCore { defaultArgs with size := .s (ps "T") }) = .num 6 := by decide
example : sizeAsNumber (initCore { defaultArgs with size := .i 10 }) = .num 10 := by decide
example : sizeAsNumber (initCore { defaultArgs with size := .i 0 }) = .num 18 := by decide
example : sizeAsNumber (initCore { defaultArgs with size := .s (ps "tiny") }) = .st (ps "m") := by decide
example : sizeAsNumber (initCore { defaultArgs with size := .f (mkRat 1 2) }) = .num (mkRat 1 2) := by decide
example : (initCore { defaultArgs with version := .s (ps "M2"), micro := false }).micro = true := by decide
example : (initCore { defaultArgs with version := .s (ps "zz"), micro := true }).version = .none := by decide
example : (initCore { defaultArgs with version := .s (ps "07") }).version = .i 7 := by decide

/-! ## Pydantic `@validate_call` type-coercion layer

`QRCodeOptions.__init__` is wrapped in pydantic's `@validate_call` (lax mode):
an unexpected keyword raises, and each argument is coerced to its annotated
type, raising `ValidationError` when coercion is impossible.  The coercion
rules below model pydantic v2 lax mode for the annotations of this signature:
a string is valid for `int` only when it spells an integer; `bool` is not
accepted for `int`/`str`; in a smart union an input keeps its own type when
that type is a member. -/

/-- Pydantic lax `str -> int`: optional sign followed by digits. -/
def strToIntOpt (l : PyStr) : Option Int :=
  match l with
  | '-' :: rest => if pyIsDigit rest then some (-(strToNat rest : Int)) else none
  | '+' :: rest => if pyIsDigit rest then some (strToNat rest : Int) else none
  | _ => if pyIsDigit l then some (strToNat l : Int) else none

/-- Validation of `size : Union[int, float, str, Decimal, None]`. -/
def validateSize : PyVal → Option SizeVal
  | .vInt n => some (.i n)
  | .vFloat q => some (.f q)
  | .vStr s => some (.s s)
  | .vNone => some .none
  | .vBool _ => none

/-- Validation of an `int` argument (`border`). -/
def validateInt : PyVal → Option Int
  | .vInt n => some n
  | .vStr s => strToIntOpt s
  | .vFloat q => if q.den = 1 then some q.num else none
  | _ => none

/-- Validation of `version : Union[int, str, None]`. -/
def validateVersionArg : PyVal → Option VersionVal
  | .vInt n => some (.i n)
  | .vStr s => some (.s s)
  | .vNone => some .none
  | .vFloat q => if q.den = 1 then some (.i q.num) else none
  | .vBool _ => none

/-- Validation of a `str` argument (`image_format`, `error_correction`). -/
def validateStr : PyVal → Option PyStr
  | .vStr s => some s
  | _ => none

/-- Validation of `encoding : Optional[str]`. -/
def validateOptStr : PyVal → Option (Option PyStr)
  | .vStr s => some (some s)
  | .vNone => some Option.none
  | _ => none

/-- Pydantic lax `bool` coercion (`boost_error`, `micro`, `eci`). -/
def validateBool : PyVal → Option Bool
  | .vBool b => some b
  | .vInt n => if n = 0 then some false else if n = 1 then some true else none
  | .vFloat q => if q = 0 then some false else if q = 1 then some true else none
  | .vStr s =>
    let t := pyLower s
    if t ∈ [ps "true", ps "1", ps "yes", ps "on", ps "y", ps "t"] then some true
    else if t ∈ [ps "false", ps "0", ps "no", ps "off", ps "n", ps "f"] then some false
    else none
  | .vNone => none

/-- Validation of a color argument `Union[tuple, str, bool, None]`. -/
def validateColor : PyVal → Option ColorVal
  | .vStr s => some (.s s)
  | .vBool b => some (.b b)
  | .vNone => some .none
  | _ => none

/-- The recognized keyword names of `QRCodeOptions.__init__`, in signature order. -/
def recognizedNames : List PyStr :=
  [ps "size", ps "border", ps "version", ps "image_format", ps "error_correction",
   ps "encoding", ps "boost_error", ps "micro", ps "eci",
   ps "dark_color", ps "light_color",
   ps "finder_dark_color", ps "finder_light_color",
   ps "data_dark_color", ps "data_light_color",
   ps "version_dark_color", ps "version_light_color",
   ps "format_dark_color", ps "format_light_color",
   ps "alignment_dark_color", ps "alignment_light_color",
   ps "timing_dark_color", ps "timing_light_color",
   ps "separator_color", ps "dark_module_color", ps "quiet_zone_color"]

/-- The Python default value of each keyword, as a raw value. -/
def defaultFieldValue (name : PyStr) : PyVal :=
  if name = ps "size" then .vStr (ps "m")
  else if name = ps "border" then .vInt 4
  else if name = ps "version" then .vNone
  else if name = ps "image_format" then .vStr (ps "svg")
  else if name = ps "error_correction" then .vStr (ps "m")
  else if name = ps "encoding" then .vStr (ps "utf-8")
  else if name = ps "boost_error" then .vBool true
  else if name = ps "micro" then .vBool false
  else if name = ps "eci" then .vBool false
  else if name = ps "dark_color" then .vStr (ps "black")
  else if name = ps "light_color" then .vStr (ps "white")
  else .vBool false

/-- The effective raw value of a keyword: the caller's value or the default. -/
def lookupField (fields : List (PyStr × PyVal)) (name : PyStr) : PyVal :=
  match fields.find? fun kv => kv.1 = name with
  | some kv => kv.2
  | Option.none => defaultFieldValue name

/-- Errors of `QRCodeOptions` construction: an unexpected keyword, or a value
that cannot be coerced to the annotated type of its keyword. -/
inductive InitError where
  | unknownArgument (name : PyStr)
  | validationError (name : PyStr)
  deriving DecidableEq, Repr

/-- One field of the `@validate_call` step: validate the effective value of
`name` with `validator`, failing with `ValidationError` on that field. -/
def vfield {α : Type} (fields : List (PyStr × PyVal)) (name : String)
    (validator : PyVal → Option α) : Except InitError α :=
  match validator (lookupField fields (ps name)) with
  | some a => .ok a
  | Option.none => .error (.validationError (ps name))

/-- The `@validate_call` step of `QRCodeOptions.__init__`: reject unknown
keywords, then coerce every argument to its annotated type. -/
def validateArgs (fields : List (PyStr × PyVal)) : Except InitError ValidatedArgs :=
  match fields.find? fun kv => !recognizedNames.contains kv.1 with
  | some kv => .error (.unknownArgument kv.1)
  | Option.none =>
    (vfield fields "size" validateSize).bind fun size =>
    (vfield fields "border" validateInt).bind fun border =>
    (vfield fields "version" validateVersionArg).bind fun version =>
    (vfield fields "image_format" validateStr).bind fun image_format =>
    (vfield fields "error_correction" validateStr).bind fun error_correction =>
    (vfield fields "encoding" validateOptStr).bind fun encoding =>
    (vfield fields "boost_error" validateBool).bind fun boost_error =>
    (vfield fields "micro" validateBool).bind fun micro =>
    (vfield fields "eci" validateBool).bind fun eci =>
    (vfield fields "dark_color" validateColor).bind fun dark_color =>
    (vfield fields "light_color" validateColor).bind fun light_color =>
    (vfield fields "finder_dark_color" validateColor).bind fun finder_dark_color =>
    (vfield fields "finder_light_color" validateColor).bind fun finder_light_color =>
    (vfield fields "data_dark_color" validateColor).bind fun data_dark_color =>
    (vfield fields "data_light_color" validateColor).bind fun data_light_color =>
    (vfield fields "version_dark_color" validateColor).bind fun version_dark_color =>
    (vfield fields "version_light_color" validateColor).bind fun version_light_color =>
    (vfield fields "format_dark_color" validateColor).bind fun format_dark_color =>
    (vfield fields "format_light_color" validateColor).bind fun format_light_color =>
    (vfield fields "alignment_dark_color" validateColor).bind fun alignment_dark_color =>
    (vfield fields "alignment_light_color" validateColor).bind fun alignment_light_color =>
    (vfield fields "timing_dark_color" validateColor).bind fun timing_dark_color =>
    (vfield fields "timing_light_color" validateColor).bind fun timing_light_color =>
    (vfield fields "separator_color" validateColor).bind fun separator_color =>
    (vfield fields "dark_module_color" validateColor).bind fun dark_module_color =>
    (vfield fields "quiet_zone_color" validateColor).bind fun quiet_zone_color =>
    .ok { size, border, version, image_format, error_correction, encoding,
          boost_error, micro, eci, dark_color, light_color,
          finder_dark_color, finder_light_color, data_dark_color, data_light_color,
          version_dark_color, version_light_color, format_dark_color, format_light_color,
          alignment_dark_color, alignment_light_color, timing_dark_color, timing_light_color,
          separator_color, dark_module_color, quiet_zone_color }

/-- `QRCodeOptions(**fields)`: pydantic validation followed by the `__init__` body. -/
def qrCodeOptionsInit (fields : List (PyStr × PyVal)) : Except InitError QRCodeOptions :=
  (validateArgs fields).map initCore

example : qrCodeOptionsInit [] = .ok defaultQRCodeOptions := by decide
example : qrCodeOptionsInit [(ps "border", .vStr (ps "abc"))]
    = .error (.validationError (ps "border")) := by decide
example : qrCodeOptionsInit [(ps "no_such_option", .vStr (ps "x"))]
    = .error (.unknownArgument (ps "no_such_option")) := by decide
example : (qrCodeOptionsInit [(ps "error_correction", .vStr (ps "Z"))]).map (·.error_correction)
    = .ok (ps "m") := by decide
example : (qrCodeOptionsInit [(ps "border", .vStr (ps "7"))]).map (·.border) = .ok 7 := by decide

/-! ## URL signing (qr_code/qrcode/serve.py) and token check (qr_code/views.py)

The Django `Signer` is modelled by an abstract MAC function
`mac : PyStr → PyStr` (fixed by the signing key and the signing salt);
`Signer.sign` appends `":" + mac(value)` and `Signer.unsign` splits at the
last `":"` and compares the recomputed MAC.  Django's MAC is a base64url
HMAC, hence never contains `":"`; theorems take that as a hypothesis. -/

/-- Kernel-computable absolute value on the rational model of Python floats. -/
def ratAbs (q : ℚ) : ℚ := if q < 0 then -q else q

/-- Kernel-computable floor on the rational model of Python floats. -/
def ratFloor (q : ℚ) : Int := Int.fdiv q.num q.den

/-- Decimal fraction digits of a rational in `[0, 1)` (fuel-driven; every
binary float has a finite decimal expansion well below the fuel). -/
def decimalFracDigitsAux : Nat → ℚ → List Char
  | 0, _ => []
  | fuel + 1, q =>
    if q = 0 then []
    else
      let d := (ratFloor (q * 10)).toNat
      digitChar d :: decimalFracDigitsAux fuel (q * 10 - (ratFloor (q * 10) : Int))

/-- Models Python `str()` on the float/Decimal sizes: sign, integer part, `.`,
then the (finite, for binary floats) decimal fraction digits.  A Python float
is modelled as the rational it is displayed as, so its `repr` is its exact
decimal expansion. -/
def floatRepr (q : ℚ) : PyStr :=
  let sign : PyStr := if q < 0 then ['-'] else []
  let a := ratAbs q
  let ipart := (ratFloor a).toNat
  let frac := a - (ratFloor a : Int)
  let ds := decimalFracDigitsAux 1200 frac
  sign ++ natDigits ipart ++ '.' :: (if ds = [] then ['0'] else ds)

/-- `str(qr_code_options.size)`. -/
def strOfSize : SizeVal → PyStr
  | .i n => intRepr n
  | .f q => floatRepr q
  | .s st => st
  | .none => ps "None"

/-- `str(qr_code_options.version or '')`: the empty string for `None` (and for
a falsy version value), else the version's string form. -/
def strOfVersionOrEmpty : VersionVal → PyStr
  | .none => []
  | .i n => if n = 0 then [] else intRepr n
  | .s st => st

/-- `get_qr_url_protection_token(qr_code_options, random_token)` (serve.py
lines 77-84): `'.'.join(str(size), str(border), str(version or ''),
image_format, error_correction, random_token)`. -/
def getQrUrlProtectionToken (o : QRCodeOptions) (random_token : PyStr) : PyStr :=
  strOfSize o.size ++ '.' :: intRepr o.border ++ '.' :: strOfVersionOrEmpty o.version
    ++ '.' :: o.image_format ++ '.' :: o.error_correction ++ '.' :: random_token

/-- `Signer.sign(value)`: `value + ":" + mac(value)`. -/
def signerSign (mac : PyStr → PyStr) (value : PyStr) : PyStr := value ++ ':' :: mac value

/-- `Signer.unsign(signed_value)`: split at the last `":"`, recompute the MAC of
the left part, return it on a match; `none` models `BadSignature`. -/
def signerUnsign (mac : PyStr → PyStr) (signed_value : PyStr) : Option PyStr :=
  match rsplitOnce ':' signed_value with
  | Option.none => Option.none
  | some (value, sig) => if mac value = sig then some value else Option.none

/-- `get_qr_url_protection_signed_token(qr_code_options)` (serve.py lines
69-74); `salt` is the process-wide `_RANDOM_TOKEN`. -/
def getQrUrlProtectionSignedToken (mac : PyStr → PyStr) (salt : PyStr) (o : QRCodeOptions) : PyStr :=
  signerSign mac (getQrUrlProtectionToken o salt)

/-- The `PermissionDenied` outcomes of the access checks in views.py. -/
inductive AccessError where
  | permissionDenied (msg : PyStr)
  deriving DecidableEq, Repr

/-- `check_url_signature_token(qr_code_options, token)` (views.py lines
118-129): unsign, take the text after the last `"."` as the random token,
recompute the protection string for this request's options and compare. -/
def checkUrlSignatureToken (mac : PyStr → PyStr) (o : QRCodeOptions) (token : PyStr) :
    Except AccessError Unit :=
  match signerUnsign mac token with
  | Option.none => .error (.permissionDenied (ps "Wrong token signature."))
  | some url_protection_string =>
    let random_token := lastSplitComponent '.' url_protection_string
    if getQrUrlProtectionToken o random_token = url_protection_string then .ok ()
    else .error (.permissionDenied (ps "Request query does not match protection token."))

/-- A Django user as seen by the access-control code: a primary key (None
before the user is saved, an int after) and the `is_authenticated` flag.
`AnonymousUser` has `pk = None` and `is_authenticated = False`. -/
structure DjangoUser where
  pk : Option Int
  is_authenticated : Bool

def anonymousUser : DjangoUser := { pk := Option.none, is_authenticated := false }

/-- The configured value of `ALLOWS_EXTERNAL_REQUESTS_FOR_REGISTERED_USER`:
a callable, the literal `True`, or any other value (the default is `False`). -/
inductive ExternalRequestsSetting where
  | callable (f : DjangoUser → Bool)
  | pyTrue
  | otherValue

/-- The default `ALLOWS_EXTERNAL_REQUESTS_FOR_REGISTERED_USER` value, `False`
(serve.py line 24): not callable and not `is True`. -/
def defaultExternalRequestsSetting : ExternalRequestsSetting := .otherValue

/-- `_options_allow_external_request(url_protection_options, user)` (serve.py
lines 34-42): call the callable on `user or AnonymousUser()`, else for the
literal `True` require a truthy user with a truthy pk that is authenticated,
else `False`. -/
def optionsAllowExternalRequest (setting : ExternalRequestsSetting) (user : Option DjangoUser) : Bool :=
  match setting with
  | .callable f => f (user.getD anonymousUser)
  | .pyTrue =>
    match user with
    | Option.none => false
    | some u => (match u.pk with | Option.none => false | some k => k != 0) && u.is_authenticated
  | .otherValue => false

/-- `check_image_access_permission(request, qr_code_options)` (views.py lines
108-115): `request.GET.get("token", "")` is `tokenParam` (the empty string when
the parameter is absent); a non-empty token must verify, a missing token falls
back to the user-based policy. -/
def checkImageAccessPermission (setting : ExternalRequestsSetting) (mac : PyStr → PyStr)
    (user : Option DjangoUser) (o : QRCodeOptions) (tokenParam : PyStr) :
    Except AccessError Unit :=
  if tokenParam ≠ [] then checkUrlSignatureToken mac o tokenParam
  else if optionsAllowExternalRequest setting user then .ok ()
  else .error (.permissionDenied (ps "You are not allowed to access this QR code."))

section TokenExamples

def macX : PyStr → PyStr := fun _ => ps "MACX"

example : getQrUrlProtectionToken defaultQRCodeOptions (ps "RND")
    = ps "m.4..svg.m.RND" := by decide
example : checkUrlSignatureToken macX defaultQRCodeOptions
    (getQrUrlProtectionSignedToken macX (ps "RND") defaultQRCodeOptions) = .ok () := by decide
example : checkUrlSignatureToken macX (initCore { defaultArgs with border := 5 })
    (getQrUrlProtectionSignedToken macX (ps "RND") defaultQRCodeOptions)
    = .error (.permissionDenied (ps "Request query does not match protection token.")) := by decide
example : checkUrlSignatureToken macX (initCore { defaultArgs with eci := true })
    (getQrUrlProtectionSignedToken macX (ps "RND") defaultQRCodeOptions) = .ok () := by decide

end TokenExamples

/-! ## Payload encoders (qr_code/qrcode/utils.py) -/

/-- The characters escaped by `_escape_mecard_special_chars`, in source order. -/
def mecardSpecialChars : List Char := ['\\', '"', ';', ',', ':']

/-- `_escape_mecard_special_chars` (utils.py lines 865-872): successive
`str.replace(sc, "\\" + sc)` over the special characters, backslash first. -/
def escapeMecardSpecialChars (l : PyStr) : PyStr :=
  if l = [] then l
  else mecardSpecialChars.foldl (fun acc sc => pyReplace1 sc ['\\', sc] acc) l

example : escapeMecardSpecialChars (ps "a;b,c:d\\e") = ps "a\\;b\\,c\\:d\\\\e" := by decide
example : escapeMecardSpecialChars (ps "s\"x") = ps "s\\\"x" := by decide

/-- `WifiConfig` (utils.py lines 744-762): `authentication` is one of the
`AUTHENTICATION` namedtuple values nopass=0, WEP=1, WPA=2. -/
structure WifiConfig where
  ssid : PyStr := []
  authentication : Int := 0
  password : PyStr := []
  hidden : Bool := false
  deriving DecidableEq, Repr

/-- `AUTHENTICATION_CHOICES[authentication][1]`; indexes outside 0..2 raise
`IndexError` in Python and are outside the modelled domain. -/
def authenticationChoiceName (a : Int) : PyStr :=
  if a = 0 then ps "nopass" else if a = 1 then ps "WEP" else if a = 2 then ps "WPA" else []

/-- `WifiConfig.make_qr_code_data` (utils.py lines 764-782).  Each section is
guarded by the truthiness of its field; the `H` section renders
`str(self.hidden).lower()`, which is `"true"` whenever it is emitted. -/
def wifiMakeQrCodeData (w : WifiConfig) : PyStr :=
  ps "WIFI:"
    ++ (if w.ssid ≠ [] then ps "S:" ++ escapeMecardSpecialChars w.ssid ++ ps ";" else [])
    ++ (if w.authentication ≠ 0 then ps "T:" ++ authenticationChoiceName w.authentication ++ ps ";" else [])
    ++ (if w.password ≠ [] then ps "P:" ++ escapeMecardSpecialChars w.password ++ ps ";" else [])
    ++ (if w.hidden then ps "H:true;" else [])
    ++ ps ";"

example : wifiMakeQrCodeData { ssid := ps "my-wifi", authentication := 2, password := ps "wifi-password" }
    = ps "WIFI:S:my-wifi;T:WPA;P:wifi-password;;" := by decide
example : wifiMakeQrCodeData { ssid := ps "my-wifi", authentication := 2, password := ps "wifi-password", hidden := true }
    = ps "WIFI:S:my-wifi;T:WPA;P:wifi-password;H:true;;" := by decide

/-! ## iCalendar VEVENT folding and escaping (utils.py lines 358-447) -/

/-- The UTF-8 byte count of one character. -/
def charBytes (c : Char) : Nat :=
  if c.toNat < 0x80 then 1 else if c.toNat < 0x800 then 2 else if c.toNat < 0x10000 then 3 else 4

/-- The UTF-8 octet length of a string. -/
def utf8Len (l : PyStr) : Nat := (l.map charBytes).sum

/-- RFC 5545 fold separator: CRLF followed by one space. -/
def foldSep : PyStr := ['\r', '\n', ' ']

/-- Python `sep.join(parts)`. -/
def joinSep (sep : PyStr) : List PyStr → PyStr
  | [] => []
  | s :: rest => s ++ (rest.map fun t => sep ++ t).flatten

/-- The ASCII fast path of `fold_icalendar_line`: chunks of `limit - 1 = 74`
characters (`line[i : i + limit - 1]` for `i in range(0, len(line), limit - 1)`). -/
def chunksAsciiAux : Nat → PyStr → List PyStr
  | _, [] => []
  | 0, _ :: _ => []
  | fuel + 1, x :: xs => (x :: xs).take 74 :: chunksAsciiAux fuel ((x :: xs).drop 74)

def chunksAscii (l : PyStr) : List PyStr := chunksAsciiAux l.length l

/-- The byte-aware path of `fold_icalendar_line`: accumulate the UTF-8 byte
count, inserting the fold separator before the character that would reach the
75-octet limit and resetting the count to that character's length. -/
def foldUtf8 : PyStr → Nat → PyStr
  | [], _ => []
  | c :: cs, byte_count =>
    let L := charBytes c
    if byte_count + L ≥ 75 then foldSep ++ c :: foldUtf8 cs L
    else c :: foldUtf8 cs (byte_count + L)

/-- Whether `line.encode("ascii")` succeeds. -/
def isAsciiLine (l : PyStr) : Bool := l.all fun c => c.toNat < 128

/-- One line of `fold_icalendar_line`: the ASCII chunking fast path, or the
byte-counting path for non-ASCII lines. -/
def foldOneLine (l : PyStr) : PyStr :=
  if isAsciiLine l then joinSep foldSep (chunksAscii l) else foldUtf8 l 0

/-- `fold_icalendar_line(text)` (utils.py lines 366-393): fold each
`"\n"`-separated line; the folded lines are concatenated (`new_text +=`)
without re-inserting the `"\n"` separators. -/
def foldIcalendarLine (text : PyStr) : PyStr :=
  ((splitOnChar '\n' text).map foldOneLine).flatten

/-- `escape_char(text)` (utils.py lines 396-406): iCalendar TEXT escaping, in
source order: literal `\N` to newline, backslash doubling, `;` and `,`
escaping, then CRLF and LF to the literal two-character `\n`. -/
def icalEscapeChar (text : PyStr) : PyStr :=
  pyReplace1 '\n' ['\\', 'n']
    (pyReplace2 '\r' '\n' ['\\', 'n']
      (pyReplace1 ',' ['\\', ',']
        (pyReplace1 ';' ['\\', ';']
          (pyReplace1 '\\' ['\\', '\\']
            (pyReplace2 '\\' 'N' ['\n'] text)))))

/-- The folded DESCRIPTION property content produced by
`VEvent.make_qr_code_data` for a description `d` (utils.py line 434). -/
def foldedDescriptionProperty (d : PyStr) : PyStr :=
  foldIcalendarLine (ps "DESCRIPTION:" ++ icalEscapeChar d)

example : icalEscapeChar (ps "a;b\\c") = ps "a\\;b\\\\c" := by decide
example : foldOneLine (ps "short") = ps "short" := by decide

/-! ## Coordinates (utils.py lines 785-818) -/

/-- A coordinates record; latitude/longitude/altitude are Python floats,
modelled as rationals. -/
structure Coordinates where
  latitude : ℚ
  longitude : ℚ
  altitude : Option ℚ := Option.none
  deriving DecidableEq, Repr

/-- Left-pad with `'0'` to `k` characters (the fixed-width fraction part). -/
def padLeftZeros (k : Nat) (l : PyStr) : PyStr := List.replicate (k - l.length) '0' ++ l

/-- Strip trailing `'0'` characters; models Python `str.rstrip("0")`. -/
def rstripZeros (l : PyStr) : PyStr := (l.reverse.dropWhile fun c => c = '0').reverse

/-- Python `f"{f:.8f}"`: sign, integer part, `.`, exactly eight fraction digits
(rounding half to even). -/
def format8 (q : ℚ) : PyStr :=
  let neg := q < 0
  let a := ratAbs q * 100000000
  let fl := ratFloor a
  let fr := a - (fl : Int)
  let n := if fr > mkRat 1 2 then fl + 1
           else if fr < mkRat 1 2 then fl
           else if fl % 2 = 0 then fl else fl + 1
  let nn := n.toNat
  (if neg then ['-'] else []) ++ natDigits (nn / 100000000) ++ '.' :: padLeftZeros 8 (natDigits (nn % 100000000))

/-- `Coordinates.float_to_str`: `f"{f:.8f}".rstrip("0")`. -/
def coordFloatToStr (q : ℚ) : PyStr := rstripZeros (format8 q)

/-- `Coordinates.make_geolocation_text` (utils.py lines 808-812); the altitude
component is guarded by Python truthiness (`if self.altitude:`). -/
def makeGeolocationText (c : Coordinates) : PyStr :=
  let geo := ps "geo:" ++ coordFloatToStr c.latitude ++ ',' :: coordFloatToStr c.longitude
  match c.altitude with
  | some a => if a ≠ 0 then geo ++ ',' :: coordFloatToStr a else geo
  | Option.none => geo

/-- `Coordinates.make_google_maps_text` (utils.py lines 814-818). -/
def makeGoogleMapsText (c : Coordinates) : PyStr :=
  let geo := ps "https://maps.google.com/local?q="
    ++ coordFloatToStr c.latitude ++ ',' :: coordFloatToStr c.longitude
  match c.altitude with
  | some a => if a ≠ 0 then geo ++ ',' :: coordFloatToStr a else geo
  | Option.none => geo

example : coordFloatToStr (mkRat 1 2) = ps "0.5" := by with_unfolding_all decide
example : coordFloatToStr 26 = ps "26." := by with_unfolding_all decide
example : makeGeolocationText { latitude := mkRat 1 2, longitude := 2, altitude := some 0 }
    = ps "geo:0.5,2." := by with_unfolding_all decide
example : makeGeolocationText { latitude := mkRat 1 2, longitude := 2, altitude := some 7 }
    = ps "geo:0.5,2.,7." := by with_unfolding_all decide

/-! ## Supporting lemmas: decimal digits -/

lemma isDigit_digitChar (n : Nat) (h : n < 10) : (digitChar n).isDigit = true := by
  interval_cases n <;> decide

lemma mem_natDigitsAux {c : Char} : ∀ fuel n, c ∈ natDigitsAux fuel n → c.isDigit = true := by
  intro fuel
  induction fuel with
  | zero => intro n h; simp [natDigitsAux] at h
  | succ fuel ih =>
    intro n h
    simp only [natDigitsAux] at h
    by_cases hn : n < 10
    · rw [if_pos hn] at h
      simp only [List.mem_singleton] at h
      subst h
      exact isDigit_digitChar n hn
    · rw [if_neg hn] at h
      rcases List.mem_append.1 h with h1 | h1
      · exact ih _ h1
      · simp only [List.mem_singleton] at h1
        subst h1
        exact isDigit_digitChar _ (Nat.mod_lt _ (by norm_num))

lemma not_mem_natDigits {c : Char} (hc : c.isDigit = false) (n : Nat) : c ∉ natDigits n := by
  intro h
  rw [mem_natDigitsAux _ _ h] at hc
  exact absurd hc (by simp)

lemma dot_not_mem_intRepr (n : Int) : '.' ∉ intRepr n := by
  unfold intRepr
  split
  · intro h
    rcases List.mem_cons.1 h with h1 | h1
    · exact absurd h1 (by decide)
    · exact not_mem_natDigits (by decide) _ h1
  · exact not_mem_natDigits (by decide) _

/-! ## Supporting lemmas: split and rsplit -/

lemma splitOnCharAux_ne_nil (c : Char) : ∀ l acc, splitOnCharAux c l acc ≠ [] := by
  intro l
  induction l with
  | nil => intro acc; simp [splitOnCharAux]
  | cons x xs ih =>
    intro acc
    simp only [splitOnCharAux]
    split
    · simp
    · exact ih _

lemma splitOnCharAux_not_mem (c : Char) :
    ∀ l acc, c ∉ l → splitOnCharAux c l acc = [acc.reverse ++ l] := by
  intro l
  induction l with
  | nil => intro acc _; simp [splitOnCharAux]
  | cons x xs ih =>
    intro acc hx
    have hxc : ¬x = c := fun h => hx (h ▸ List.mem_cons_self x xs)
    have hxs : c ∉ xs := fun h => hx (List.mem_cons_of_mem _ h)
    simp only [splitOnCharAux, if_neg hxc]
    rw [ih (x :: acc) hxs]
    simp

lemma getLast?_cons_isSome {α : Type} : ∀ (a : α) (l : List α), ((a :: l).getLast?).isSome = true := by
  intro a l
  induction l generalizing a with
  | nil => rfl
  | cons b t ih => rw [List.getLast?_cons_cons]; exact ih b

lemma getLastD_irrel {α : Type} : ∀ (l : List α) (d1 d2 : α), l ≠ [] → l.getLastD d1 = l.getLastD d2 := by
  intro l d1 d2 h
  cases l with
  | nil => exact absurd rfl h
  | cons a t =>
    obtain ⟨b, hb⟩ := Option.isSome_iff_exists.1 (getLast?_cons_isSome a t)
    simp [List.getLastD, hb]

lemma getLastD_cons_of_ne_nil {α : Type} (a : α) (l : List α) (h : l ≠ []) (d : α) :
    (a :: l).getLastD d = l.getLastD d := by
  cases l with
  | nil => exact absurd rfl h
  | cons b t => simp [List.getLastD, List.getLast?_cons_cons]

lemma lastSplitComponent_aux (c : Char) (w : PyStr) (hw : c ∉ w) :
    ∀ a acc, (splitOnCharAux c (a ++ c :: w) acc).getLastD [] = w := by
  intro a
  induction a with
  | nil =>
    intro acc
    have hsplit : splitOnCharAux c (([] : List Char) ++ c :: w) acc
        = acc.reverse :: splitOnCharAux c w [] := by
      simp [splitOnCharAux]
    rw [hsplit, getLastD_cons_of_ne_nil _ _ (splitOnCharAux_ne_nil c w []),
      splitOnCharAux_not_mem c w [] hw]
    simp
  | cons x xs ih =>
    intro acc
    by_cases hx : x = c
    · have hsplit : splitOnCharAux c ((x :: xs) ++ c :: w) acc
          = acc.reverse :: splitOnCharAux c (xs ++ c :: w) [] := by
        simp [splitOnCharAux, hx]
      rw [hsplit, getLastD_cons_of_ne_nil _ _ (splitOnCharAux_ne_nil c (xs ++ c :: w) [])]
      exact ih []
    · have hsplit : splitOnCharAux c ((x :: xs) ++ c :: w) acc
          = splitOnCharAux c (xs ++ c :: w) (x :: acc) := by
        simp [splitOnCharAux, hx]
      rw [hsplit]
      exact ih (x :: acc)

lemma lastSplitComponent_append (c : Char) (a w : PyStr) (hw : c ∉ w) :
    lastSplitComponent c (a ++ c :: w) = w :=
  lastSplitComponent_aux c w hw a []

lemma rsplitOnce_not_mem (c : Char) : ∀ l, c ∉ l → rsplitOnce c l = Option.none := by
  intro l
  induction l with
  | nil => intro _; rfl
  | cons x xs ih =>
    intro hx
    have hxc : ¬x = c := fun h => hx (h ▸ List.mem_cons_self x xs)
    have hxs : c ∉ xs := fun h => hx (List.mem_cons_of_mem _ h)
    simp only [rsplitOnce, ih hxs, if_neg hxc]

lemma rsplitOnce_append (c : Char) (w : PyStr) (hw : c ∉ w) :
    ∀ v, rsplitOnce c (v ++ c :: w) = some (v, w) := by
  intro v
  induction v with
  | nil => simp [rsplitOnce, rsplitOnce_not_mem c w hw]
  | cons x xs ih => simp [rsplitOnce, ih]

lemma signerUnsign_signerSign (mac : PyStr → PyStr) (v : PyStr) (h : ':' ∉ mac v) :
    signerUnsign mac (signerSign mac v) = some v := by
  unfold signerSign signerUnsign
  rw [rsplitOnce_append ':' (mac v) h v]
  simp

/-! ## Supporting lemmas: injectivity of the dot-joined protection string -/

lemma append_sep_inj (c : Char) :
    ∀ (a1 a2 b1 b2 : List Char), a1 ++ c :: b1 = a2 ++ c :: b2 →
      b1.count c = b2.count c → a1 = a2 ∧ b1 = b2 := by
  intro a1
  induction a1 with
  | nil =>
    intro a2 b1 b2 h hc
    cases a2 with
    | nil =>
      simp only [List.nil_append, List.cons.injEq] at h
      exact ⟨rfl, h.2⟩
    | cons y ys =>
      simp only [List.nil_append, List.cons_append, List.cons.injEq] at h
      obtain ⟨hy, hb⟩ := h
      subst hy
      rw [hb, List.count_append, List.count_cons_self] at hc
      omega
  | cons x xs ih =>
    intro a2 b1 b2 h hc
    cases a2 with
    | nil =>
      simp only [List.nil_append, List.cons_append, List.cons.injEq] at h
      obtain ⟨hy, hb⟩ := h
      subst hy
      rw [← hb, List.count_append, List.count_cons_self] at hc
      omega
    | cons y ys =>
      simp only [List.cons_append, List.cons.injEq] at h
      obtain ⟨hxy, ht⟩ := h
      subst hxy
      obtain ⟨h1, h2⟩ := ih ys b1 b2 ht hc
      exact ⟨by rw [h1], h2⟩

/-! ## Supporting lemmas: the protection string -/

/-- The five option renderings actually bound into the protection token:
`str(size)`, `str(border)`, `str(version or '')`, `image_format`,
`error_correction`. -/
def tokenParams (o : QRCodeOptions) : PyStr × PyStr × PyStr × PyStr × PyStr :=
  (strOfSize o.size, intRepr o.border, strOfVersionOrEmpty o.version, o.image_format, o.error_correction)

/-- The version/format/error-correction renderings are free of the `"."`
separator; true for every option set built by `QRCodeOptions.__init__`. -/
def TokenFieldsWF (o : QRCodeOptions) : Prop :=
  '.' ∉ strOfVersionOrEmpty o.version ∧ '.' ∉ o.image_format ∧ '.' ∉ o.error_correction

instance (o : QRCodeOptions) : Decidable (TokenFieldsWF o) := by
  unfold TokenFieldsWF; infer_instance

lemma protectionToken_shape (o : QRCodeOptions) (salt : PyStr) :
    getQrUrlProtectionToken o salt
      = (strOfSize o.size ++ '.' :: intRepr o.border ++ '.' :: strOfVersionOrEmpty o.version
          ++ '.' :: o.image_format ++ '.' :: o.error_correction) ++ '.' :: salt := by
  simp [getQrUrlProtectionToken, List.append_assoc]

lemma lastSplitComponent_protectionToken (o : QRCodeOptions) (salt : PyStr) (hs : '.' ∉ salt) :
    lastSplitComponent '.' (getQrUrlProtectionToken o salt) = salt := by
  rw [protectionToken_shape]
  exact lastSplitComponent_append '.' _ salt hs

/-- C1 core fact: a freshly issued signed token passes `check_url_signature_token`
for the same options. -/
lemma checkUrlSignatureToken_of_sign (mac : PyStr → PyStr) (salt : PyStr) (o o2 : QRCodeOptions)
    (hmac : ':' ∉ mac (getQrUrlProtectionToken o salt)) (hs : '.' ∉ salt) :
    checkUrlSignatureToken mac o2 (getQrUrlProtectionSignedToken mac salt o)
      = if getQrUrlProtectionToken o2 salt = getQrUrlProtectionToken o salt then .ok ()
        else .error (.permissionDenied (ps "Request query does not match protection token.")) := by
  unfold checkUrlSignatureToken getQrUrlProtectionSignedToken
  rw [signerUnsign_signerSign mac _ hmac]
  simp only [lastSplitComponent_protectionToken o salt hs]

lemma protectionToken_inj (o1 o2 : QRCodeOptions) (salt : PyStr)
    (h1 : TokenFieldsWF o1) (h2 : TokenFieldsWF o2) :
    getQrUrlProtectionToken o1 salt = getQrUrlProtectionToken o2 salt ↔ tokenParams o1 = tokenParams o2 := by
  obtain ⟨hv1, hf1, he1⟩ := h1
  obtain ⟨hv2, hf2, he2⟩ := h2
  have hb1 := dot_not_mem_intRepr o1.border
  have hb2 := dot_not_mem_intRepr o2.border
  constructor
  · intro h
    unfold getQrUrlProtectionToken at h
    obtain ⟨h, -⟩ := append_sep_inj '.' _ _ _ _ h rfl
    obtain ⟨h, hE⟩ := append_sep_inj '.' _ _ _ _ h
      (by rw [List.count_eq_zero.2 he1, List.count_eq_zero.2 he2])
    obtain ⟨h, hD⟩ := append_sep_inj '.' _ _ _ _ h
      (by rw [List.count_eq_zero.2 hf1, List.count_eq_zero.2 hf2])
    obtain ⟨h, hC⟩ := append_sep_inj '.' _ _ _ _ h
      (by rw [List.count_eq_zero.2 hv1, List.count_eq_zero.2 hv2])
    obtain ⟨hA, hB⟩ := append_sep_inj '.' _ _ _ _ h
      (by rw [List.count_eq_zero.2 hb1, List.count_eq_zero.2 hb2])
    simp [tokenParams, hA, hB, hC, hD, hE]
  · intro h
    simp only [tokenParams, Prod.mk.injEq] at h
    obtain ⟨hA, hB, hC, hD, hE⟩ := h
    unfold getQrUrlProtectionToken
    rw [hA, hB, hC, hD, hE]

/-- Every option set built by the constructor has dot-free token components. -/
lemma tokenFieldsWF_initCore (a : ValidatedArgs) : TokenFieldsWF (initCore a) := by
  unfold TokenFieldsWF initCore
  refine ⟨?_, ?_, ?_⟩
  · simp only
    split
    · split
      · simp only [strOfVersionOrEmpty]
        split
        · simp
        · exact dot_not_mem_intRepr _
      · simp [strOfVersionOrEmpty]
    · split
      · rename_i st heq
        split
        · rename_i hmem
          fin_cases hmem <;> decide
        · simp [strOfVersionOrEmpty]
      · simp [strOfVersionOrEmpty]
  · simp only
    split
    · rename_i h
      rcases h with h | h <;> rw [h] <;> decide
    · decide
  · simp only
    split
    · rename_i h
      rcases h with h | h | h | h <;> rw [h] <;> decide
    · decide

/-- C1: within one process (same MAC and same process random token), verifying
the token issued for the same options succeeds: `check_url_signature_token`
accepts `get_qr_url_protection_signed_token`'s output for the same
`QRCodeOptions`.  The hypotheses state what Django guarantees: the HMAC is
base64-encoded (no `":"`), and the random token is alphanumeric (no `"."`). -/
theorem token_round_trip (mac : PyStr → PyStr) (salt : PyStr) (o : QRCodeOptions)
    (hmac : ∀ v, ':' ∉ mac v) (hsalt : '.' ∉ salt) :
    checkUrlSignatureToken mac o (getQrUrlProtectionSignedToken mac salt o) = .ok () := by
  rw [checkUrlSignatureToken_of_sign mac salt o o (hmac _) hsalt]
  simp

/-- Witness for `token_round_trip` at a concrete MAC, salt and option set. -/
theorem token_round_trip_witness :
    checkUrlSignatureToken macX defaultQRCodeOptions
      (getQrUrlProtectionSignedToken macX (ps "RND") defaultQRCodeOptions) = .ok () := by
  apply token_round_trip
  · intro v
    show ':' ∉ ps "MACX"
    decide
  · decide

/-- C2 (amended): a token issued for `o1` verifies against `o2` exactly when the
five token-bound renderings — `str(size)`, `str(border)`, `str(version or '')`,
`image_format`, `error_correction` — coincide; a mismatch in any of them makes
verification fail, while fields outside this tuple (`micro`, `eci`,
`boost_error`, `encoding`, colors) are not bound by the token. -/
theorem token_binds_rendered_params (mac : PyStr → PyStr) (salt : PyStr) (o1 o2 : QRCodeOptions)
    (hmac : ∀ v, ':' ∉ mac v) (hsalt : '.' ∉ salt)
    (h1 : TokenFieldsWF o1) (h2 : TokenFieldsWF o2) :
    (checkUrlSignatureToken mac o2 (getQrUrlProtectionSignedToken mac salt o1) = .ok ())
      ↔ tokenParams o1 = tokenParams o2 := by
  rw [checkUrlSignatureToken_of_sign mac salt o1 o2 (hmac _) hsalt]
  by_cases hc : getQrUrlProtectionToken o2 salt = getQrUrlProtectionToken o1 salt
  · rw [if_pos hc]
    constructor
    · intro _
      exact ((protectionToken_inj o2 o1 salt h2 h1).1 hc).symm
    · intro _
      rfl
  · rw [if_neg hc]
    constructor
    · intro h
      exact absurd h (by simp)
    · intro hp
      exact absurd ((protectionToken_inj o2 o1 salt h2 h1).2 hp.symm) hc

/-- Witness for `token_binds_rendered_params` at concrete inputs. -/
theorem token_binds_rendered_params_witness :
    checkUrlSignatureToken macX defaultQRCodeOptions
      (getQrUrlProtectionSignedToken macX (ps "RND") defaultQRCodeOptions) = .ok () := by
  refine (token_binds_rendered_params macX (ps "RND") defaultQRCodeOptions defaultQRCodeOptions
    ?_ ?_ ?_ ?_).mpr rfl
  · intro v
    show ':' ∉ ps "MACX"
    decide
  · decide
  · decide
  · decide

/-- C2 counterexample: the claim "a token issued for `o1` fails verification
against any `o2` differing in any field" is false — options differing only in
`eci` are distinct, yet the token issued for one verifies against the other. -/
theorem token_accepts_differing_eci :
    defaultQRCodeOptions ≠ initCore { defaultArgs with eci := true }
    ∧ checkUrlSignatureToken macX (initCore { defaultArgs with eci := true })
        (getQrUrlProtectionSignedToken macX (ps "RND") defaultQRCodeOptions) = .ok () := by
  decide

/-- C3: for a request carrying no token (`request.GET.get("token", "") == ""`),
`check_image_access_permission` succeeds exactly when
`_options_allow_external_request` grants access for the current user; under the
default policy (`ALLOWS_EXTERNAL_REQUESTS_FOR_REGISTERED_USER = False`, neither
callable nor `True`) every token-less request is denied. -/
theorem tokenless_access_policy :
    (∀ (setting : ExternalRequestsSetting) (mac : PyStr → PyStr)
        (user : Option DjangoUser) (o : QRCodeOptions),
      checkImageAccessPermission setting mac user o [] = .ok ()
        ↔ optionsAllowExternalRequest setting user = true)
    ∧ (∀ (mac : PyStr → PyStr) (user : Option DjangoUser) (o : QRCodeOptions),
      checkImageAccessPermission defaultExternalRequestsSetting mac user o []
        = .error (.permissionDenied (ps "You are not allowed to access this QR code."))) := by
  constructor
  · intro setting mac user o
    unfold checkImageAccessPermission
    by_cases h : optionsAllowExternalRequest setting user <;> simp [h]
  · intro mac user o
    unfold checkImageAccessPermission
    simp [defaultExternalRequestsSetting, optionsAllowExternalRequest]

/-- Witness for `tokenless_access_policy`: concrete instances of both parts. -/
theorem tokenless_access_policy_witness :
    (checkImageAccessPermission (.callable fun _ => true) macX Option.none defaultQRCodeOptions []
        = .ok ())
    ∧ checkImageAccessPermission defaultExternalRequestsSetting macX Option.none defaultQRCodeOptions []
        = .error (.permissionDenied (ps "You are not allowed to access this QR code.")) :=
  ⟨(tokenless_access_policy.1 (.callable fun _ => true) macX Option.none defaultQRCodeOptions).mpr rfl,
   tokenless_access_policy.2 macX Option.none defaultQRCodeOptions⟩


/-! ## C4: when does `QRCodeOptions(**fields)` succeed? -/

lemma except_isOk_map {e : Type} {a b : Type} (f : a → b) (x : Except e a) :
    (Except.map f x).isOk = x.isOk := by
  cases x <;> rfl

lemma except_isOk_ok {e a : Type} (x : a) : (Except.ok x : Except e a).isOk = true := rfl

lemma except_isOk_error {e a : Type} (x : e) : (Except.error x : Except e a).isOk = false := rfl

lemma except_bind_ok {e a b : Type} (x : a) (f : a → Except e b) :
    (Except.ok x : Except e a).bind f = f x := rfl

lemma except_bind_error {e a b : Type} (x : e) (f : a → Except e b) :
    (Except.error x : Except e a).bind f = .error x := rfl

/-- Whether every argument value is coercible to its annotated type — the
pydantic `@validate_call` success condition, field by field. -/
def fieldTypeOk (fields : List (PyStr × PyVal)) : Bool :=
  (validateSize (lookupField fields (ps "size"))).isSome &&
  (validateInt (lookupField fields (ps "border"))).isSome &&
  (validateVersionArg (lookupField fields (ps "version"))).isSome &&
  (validateStr (lookupField fields (ps "image_format"))).isSome &&
  (validateStr (lookupField fields (ps "error_correction"))).isSome &&
  (validateOptStr (lookupField fields (ps "encoding"))).isSome &&
  (validateBool (lookupField fields (ps "boost_error"))).isSome &&
  (validateBool (lookupField fields (ps "micro"))).isSome &&
  (validateBool (lookupField fields (ps "eci"))).isSome &&
  (validateColor (lookupField fields (ps "dark_color"))).isSome &&
  (validateColor (lookupField fields (ps "light_color"))).isSome &&
  (validateColor (lookupField fields (ps "finder_dark_color"))).isSome &&
  (validateColor (lookupField fields (ps "finder_light_color"))).isSome &&
  (validateColor (lookupField fields (ps "data_dark_color"))).isSome &&
  (validateColor (lookupField fields (ps "data_light_color"))).isSome &&
  (validateColor (lookupField fields (ps "version_dark_color"))).isSome &&
  (validateColor (lookupField fields (ps "version_light_color"))).isSome &&
  (validateColor (lookupField fields (ps "format_dark_color"))).isSome &&
  (validateColor (lookupField fields (ps "format_light_color"))).isSome &&
  (validateColor (lookupField fields (ps "alignment_dark_color"))).isSome &&
  (validateColor (lookupField fields (ps "alignment_light_color"))).isSome &&
  (validateColor (lookupField fields (ps "timing_dark_color"))).isSome &&
  (validateColor (lookupField fields (ps "timing_light_color"))).isSome &&
  (validateColor (lookupField fields (ps "separator_color"))).isSome &&
  (validateColor (lookupField fields (ps "dark_module_color"))).isSome &&
  (validateColor (lookupField fields (ps "quiet_zone_color"))).isSome

/-- C4 (amended): construction succeeds exactly when every supplied field name
is recognized and every value passes pydantic type-coercion; a recognized field
whose value has an acceptable type never fails, whatever its semantic domain
(the `__init__` body substitutes defaults instead of raising). -/
theorem options_parse_ok_iff (fields : List (PyStr × PyVal)) :
    (qrCodeOptionsInit fields).isOk = true ↔
      (fields.all fun kv => recognizedNames.contains kv.1) = true ∧ fieldTypeOk fields = true := by
  unfold qrCodeOptionsInit
  rw [except_isOk_map]
  unfold validateArgs fieldTypeOk vfield
  cases hfind : fields.find? (fun kv => !recognizedNames.contains kv.1) with
  | some kv =>
    have hkv := List.find?_some hfind
    have hmem := List.mem_of_find?_eq_some hfind
    simp only [Bool.not_eq_true'] at hkv
    constructor
    · intro h
      exact absurd h (by simp [except_isOk_error])
    · rintro ⟨hall, -⟩
      rw [List.all_eq_true] at hall
      have hc := hall kv hmem
      rw [hkv] at hc
      exact absurd hc (by simp)
  | none =>
    have hall : (fields.all fun kv => recognizedNames.contains kv.1) = true := by
      rw [List.all_eq_true]
      intro kv hkv
      have h := List.find?_eq_none.1 hfind kv hkv
      simpa using h
    rw [hall]
    simp only [true_and]
    cases h1 : validateSize (lookupField fields (ps "size")) with
    | none => simp [h1, except_bind_error, except_isOk_error]
    | some x1 =>
      simp only [h1, except_bind_ok, Option.isSome_some, Bool.true_and]
      cases h2 : validateInt (lookupField fields (ps "border")) with
      | none => simp [h2, except_bind_error, except_isOk_error]
      | some x2 =>
        simp only [h2, except_bind_ok, Option.isSome_some, Bool.true_and]
        cases h3 : validateVersionArg (lookupField fields (ps "version")) with
        | none => simp [h3, except_bind_error, except_isOk_error]
        | some x3 =>
          simp only [h3, except_bind_ok, Option.isSome_some, Bool.true_and]
          cases h4 : validateStr (lookupField fields (ps "image_format")) with
          | none => simp [h4, except_bind_error, except_isOk_error]
          | some x4 =>
            simp only [h4, except_bind_ok, Option.isSome_some, Bool.true_and]
            cases h5 : validateStr (lookupField fields (ps "error_correction")) with
            | none => simp [h5, except_bind_error, except_isOk_error]
            | some x5 =>
              simp only [h5, except_bind_ok, Option.isSome_some, Bool.true_and]
              cases h6 : validateOptStr (lookupField fields (ps "encoding")) with
              | none => simp [h6, except_bind_error, except_isOk_error]
              | some x6 =>
                simp only [h6, except_bind_ok, Option.isSome_some, Bool.true_and]
                cases h7 : validateBool (lookupField fields (ps "boost_error")) with
                | none => simp [h7, except_bind_error, except_isOk_error]
                | some x7 =>
                  simp only [h7, except_bind_ok, Option.isSome_some, Bool.true_and]
                  cases h8 : validateBool (lookupField fields (ps "micro")) with
                  | none => simp [h8, except_bind_error, except_isOk_error]
                  | some x8 =>
                    simp only [h8, except_bind_ok, Option.isSome_some, Bool.true_and]
                    cases h9 : validateBool (lookupField fields (ps "eci")) with
                    | none => simp [h9, except_bind_error, except_isOk_error]
                    | some x9 =>
                      simp only [h9, except_bind_ok, Option.isSome_some, Bool.true_and]
                      cases h10 : validateColor (lookupField fields (ps "dark_color")) with
                      | none => simp [h10, except_bind_error, except_isOk_error]
                      | some x10 =>
                        simp only [h10, except_bind_ok, Option.isSome_some, Bool.true_and]
                        cases h11 : validateColor (lookupField fields (ps "light_color")) with
                        | none => simp [h11, except_bind_error, except_isOk_error]
                        | some x11 =>
                          simp only [h11, except_bind_ok, Option.isSome_some, Bool.true_and]
                          cases h12 : validateColor (lookupField fields (ps "finder_dark_color")) with
                          | none => simp [h12, except_bind_error, except_isOk_error]
                          | some x12 =>
                            simp only [h12, except_bind_ok, Option.isSome_some, Bool.true_and]
                            cases h13 : validateColor (lookupField fields (ps "finder_light_color")) with
                            | none => simp [h13, except_bind_error, except_isOk_error]
                            | some x13 =>
                              simp only [h13, except_bind_ok, Option.isSome_some, Bool.true_and]
                              cases h14 : validateColor (lookupField fields (ps "data_dark_color")) with
                              | none => simp [h14, except_bind_error, except_isOk_error]
                              | some x14 =>
                                simp only [h14, except_bind_ok, Option.isSome_some, Bool.true_and]
                                cases h15 : validateColor (lookupField fields (ps "data_light_color")) with
                                | none => simp [h15, except_bind_error, except_isOk_error]
                                | some x15 =>
                                  simp only [h15, except_bind_ok, Option.isSome_some, Bool.true_and]
                                  cases h16 : validateColor (lookupField fields (ps "version_dark_color")) with
                                  | none => simp [h16, except_bind_error, except_isOk_error]
                                  | some x16 =>
                                    simp only [h16, except_bind_ok, Option.isSome_some, Bool.true_and]
                                    cases h17 : validateColor (lookupField fields (ps "version_light_color")) with
                                    | none => simp [h17, except_bind_error, except_isOk_error]
                                    | some x17 =>
                                      simp only [h17, except_bind_ok, Option.isSome_some, Bool.true_and]
                                      cases h18 : validateColor (lookupField fields (ps "format_dark_color")) with
                                      | none => simp [h18, except_bind_error, except_isOk_error]
                                      | some x18 =>
                                        simp only [h18, except_bind_ok, Option.isSome_some, Bool.true_and]
                                        cases h19 : validateColor (lookupField fields (ps "format_light_color")) with
                                        | none => simp [h19, except_bind_error, except_isOk_error]
                                        | some x19 =>
                                          simp only [h19, except_bind_ok, Option.isSome_some, Bool.true_and]
                                          cases h20 : validateColor (lookupField fields (ps "alignment_dark_color")) with
                                          | none => simp [h20, except_bind_error, except_isOk_error]
                                          | some x20 =>
                                            simp only [h20, except_bind_ok, Option.isSome_some, Bool.true_and]
                                            cases h21 : validateColor (lookupField fields (ps "alignment_light_color")) with
                                            | none => simp [h21, except_bind_error, except_isOk_error]
                                            | some x21 =>
                                              simp only [h21, except_bind_ok, Option.isSome_some, Bool.true_and]
                                              cases h22 : validateColor (lookupField fields (ps "timing_dark_color")) with
                                              | none => simp [h22, except_bind_error, except_isOk_error]
                                              | some x22 =>
                                                simp only [h22, except_bind_ok, Option.isSome_some, Bool.true_and]
                                                cases h23 : validateColor (lookupField fields (ps "timing_light_color")) with
                                                | none => simp [h23, except_bind_error, except_isOk_error]
                                                | some x23 =>
                                                  simp only [h23, except_bind_ok, Option.isSome_some, Bool.true_and]
                                                  cases h24 : validateColor (lookupField fields (ps "separator_color")) with
                                                  | none => simp [h24, except_bind_error, except_isOk_error]
                                                  | some x24 =>
                                                    simp only [h24, except_bind_ok, Option.isSome_some, Bool.true_and]
                                                    cases h25 : validateColor (lookupField fields (ps "dark_module_color")) with
                                                    | none => simp [h25, except_bind_error, except_isOk_error]
                                                    | some x25 =>
                                                      simp only [h25, except_bind_ok, Option.isSome_some, Bool.true_and]
                                                      cases h26 : validateColor (lookupField fields (ps "quiet_zone_color")) with
                                                      | none => simp [h26, except_bind_error, except_isOk_error]
                                                      | some x26 =>
                                                        simp only [h26, except_bind_ok, Option.isSome_some, Bool.true_and]
                                                        simp [except_isOk_ok]

/-- C4 counterexample: a mapping whose only field name is recognized
(`border`) still raises, because the value `"abc"` cannot be coerced to `int`
— contradicting "parse returns normally regardless of the field values". -/
theorem options_parse_raises_on_recognized_field :
    (ps "border") ∈ recognizedNames
    ∧ qrCodeOptionsInit [(ps "border", PyVal.vStr (ps "abc"))]
        = .error (.validationError (ps "border")) := by decide

/-- Witness for `options_parse_ok_iff`: recognized names with wildly
out-of-domain (but type-valid) values still construct successfully. -/
theorem options_parse_ok_iff_witness :
    (qrCodeOptionsInit [(ps "size", PyVal.vStr (ps "out-of-domain")),
        (ps "version", PyVal.vStr (ps "99")),
        (ps "error_correction", PyVal.vStr (ps "zzz"))]).isOk = true :=
  (options_parse_ok_iff _).mpr ⟨by decide, by decide⟩

/-! ## C5: size coercion -/

/-- Options whose only non-default argument is `size`. -/
def withSize (sv : SizeVal) : QRCodeOptions := initCore { defaultArgs with size := sv }

lemma withSize_size (sv : SizeVal) : (withSize sv).size = sv := rfl

/-- The documented size-alias table, both letter cases. -/
def sizeAliasCases : List (PyStr × ℚ) :=
  [(ps "t", 6), (ps "T", 6), (ps "s", 12), (ps "S", 12), (ps "m", 18), (ps "M", 18),
   (ps "l", 30), (ps "L", 30), (ps "h", 48), (ps "H", 48)]

/-- C5 (amended): integer sizes (and digit strings) `≥ 1` pass through; the
single-letter aliases map case-insensitively through `SIZE_DICT`; floats and
Decimals pass through from `0.01` upward (not only from 1); integers `< 1`,
floats `< 0.01`, digit strings spelling 0, and `None` yield 18; an
unrecognized (or empty) name string yields the *string* `"m"`
(`DEFAULT_MODULE_SIZE` itself), not the number 18. -/
theorem size_coercion_amended :
    (∀ n : Int, 1 ≤ n → sizeAsNumber (withSize (SizeVal.i n)) = .num (n : ℚ))
    ∧ (∀ n : Int, n < 1 → sizeAsNumber (withSize (SizeVal.i n)) = .num 18)
    ∧ (∀ s : PyStr, pyIsDigit s = true → 1 ≤ strToNat s →
        sizeAsNumber (withSize (SizeVal.s s)) = .num (strToNat s))
    ∧ (∀ s : PyStr, pyIsDigit s = true → strToNat s = 0 →
        sizeAsNumber (withSize (SizeVal.s s)) = .num 18)
    ∧ (∀ p ∈ sizeAliasCases, sizeAsNumber (withSize (SizeVal.s p.1)) = .num p.2)
    ∧ (∀ q : ℚ, mkRat 1 100 ≤ q → sizeAsNumber (withSize (SizeVal.f q)) = .num q)
    ∧ (∀ q : ℚ, q < mkRat 1 100 → sizeAsNumber (withSize (SizeVal.f q)) = .num 18)
    ∧ (∀ s : PyStr, pyIsDigit s = false → sizeDictLookup (pyLower s) = Option.none →
        sizeAsNumber (withSize (SizeVal.s s)) = .st (ps "m"))
    ∧ sizeAsNumber (withSize SizeVal.none) = .num 18 := by
  refine ⟨?_, ?_, ?_, ?_, ?_, ?_, ?_, ?_, ?_⟩
  · intro n hn
    unfold sizeAsNumber
    rw [withSize_size]
    simp only [canBeCastToIntSize, if_true, sizeToInt]
    rw [if_neg (by omega)]
  · intro n hn
    unfold sizeAsNumber
    rw [withSize_size]
    simp only [canBeCastToIntSize, if_true, sizeToInt]
    rw [if_pos hn]
  · intro s hs hn
    unfold sizeAsNumber
    rw [withSize_size]
    simp only [canBeCastToIntSize, hs, if_true, sizeToInt]
    rw [if_neg (by omega)]
    norm_cast
  · intro s hs hn
    unfold sizeAsNumber
    rw [withSize_size]
    simp only [canBeCastToIntSize, hs, if_true, sizeToInt]
    rw [if_pos (by omega)]
  · intro p hp
    fin_cases hp <;> decide
  · intro q hq
    unfold sizeAsNumber
    rw [withSize_size]
    simp only [canBeCastToIntSize, Bool.false_eq_true, if_false]
    rw [if_neg (not_lt.2 hq)]
  · intro q hq
    unfold sizeAsNumber
    rw [withSize_size]
    simp only [canBeCastToIntSize, Bool.false_eq_true, if_false]
    rw [if_pos hq]
  · intro s hs hl
    unfold sizeAsNumber
    rw [withSize_size]
    simp only [canBeCastToIntSize, hs, Bool.false_eq_true, if_false]
    rw [hl]
    rfl
  · decide

/-- C5 counterexample: an unrecognized size name is not coerced to the medium
module scale 18; `_size_as_number` returns the default size *letter* instead. -/
theorem size_unrecognized_name_not_medium :
    sizeAsNumber (withSize (SizeVal.s (ps "tiny"))) = .st (ps "m")
    ∧ sizeAsNumber (withSize (SizeVal.s (ps "tiny"))) ≠ .num 18 := by decide

/-- Witness for `size_coercion_amended` at concrete inputs. -/
theorem size_coercion_amended_witness :
    sizeAsNumber (withSize (SizeVal.i 10)) = .num ((10 : Int) : ℚ)
    ∧ sizeAsNumber (withSize (SizeVal.i 0)) = .num 18
    ∧ sizeAsNumber (withSize (SizeVal.s (ps "7"))) = .num (strToNat (ps "7"))
    ∧ sizeAsNumber (withSize (SizeVal.s (ps "T"))) = .num 6
    ∧ sizeAsNumber (withSize (SizeVal.f 1)) = .num 1
    ∧ sizeAsNumber (withSize (SizeVal.f 0)) = .num 18
    ∧ sizeAsNumber (withSize (SizeVal.s (ps "x"))) = .st (ps "m") :=
  ⟨size_coercion_amended.1 10 (by norm_num),
   size_coercion_amended.2.1 0 (by norm_num),
   size_coercion_amended.2.2.1 (ps "7") (by decide) (by decide),
   size_coercion_amended.2.2.2.2.1 (ps "T", 6) (by decide),
   size_coercion_amended.2.2.2.2.2.1 1 (by decide),
   size_coercion_amended.2.2.2.2.2.2.1 0 (by decide),
   size_coercion_amended.2.2.2.2.2.2.2.1 (ps "x") (by decide) (by decide)⟩

/-! ## C6: version coercion -/

/-- Options whose only non-default arguments are `version` and `micro`. -/
def withVersion (v : VersionVal) (m : Bool) : QRCodeOptions :=
  initCore { defaultArgs with version := v, micro := m }

/-- C6 (amended): integers (and digit strings) in 1..40 pass through as the
version; the micro-tags "M1".."M4" (either case) are lowered and force
`micro = true`; every other value yields `version = None` and leaves the
caller's `micro` value unchanged (it is not forced to false). -/
theorem version_coercion_amended :
    (∀ (n : Int) (m : Bool), 1 ≤ n → n ≤ 40 →
        (withVersion (VersionVal.i n) m).version = .i n ∧ (withVersion (VersionVal.i n) m).micro = m)
    ∧ (∀ (s : PyStr) (m : Bool), pyIsDigit s = true →
        1 ≤ (strToNat s : Int) → (strToNat s : Int) ≤ 40 →
        (withVersion (VersionVal.s s) m).version = .i (strToNat s)
          ∧ (withVersion (VersionVal.s s) m).micro = m)
    ∧ (∀ t ∈ microTags, ∀ m : Bool,
        (withVersion (VersionVal.s t) m).version = .s (pyLower t)
          ∧ (withVersion (VersionVal.s t) m).micro = true)
    ∧ (∀ (n : Int) (m : Bool), n < 1 ∨ 40 < n →
        (withVersion (VersionVal.i n) m).version = .none ∧ (withVersion (VersionVal.i n) m).micro = m)
    ∧ (∀ (s : PyStr) (m : Bool), pyIsDigit s = false → s ∉ microTags →
        (withVersion (VersionVal.s s) m).version = .none ∧ (withVersion (VersionVal.s s) m).micro = m)
    ∧ (∀ m : Bool, (withVersion VersionVal.none m).version = .none
        ∧ (withVersion VersionVal.none m).micro = m) := by
  refine ⟨?_, ?_, ?_, ?_, ?_, ?_⟩
  · intro n m h1 h40
    unfold withVersion initCore
    simp only [canBeCastToIntVersion, if_true, versionToInt]
    rw [if_pos ⟨h1, h40⟩]
    exact ⟨rfl, rfl⟩
  · intro s m hs h1 h40
    unfold withVersion initCore
    simp only [canBeCastToIntVersion, hs, if_true, versionToInt]
    rw [if_pos ⟨h1, h40⟩]
    exact ⟨rfl, rfl⟩
  · intro t ht m
    cases m <;> fin_cases ht <;> exact ⟨by decide, by decide⟩
  · intro n m hn
    unfold withVersion initCore
    simp only [canBeCastToIntVersion, if_true, versionToInt]
    rw [if_neg (by omega)]
    exact ⟨rfl, rfl⟩
  · intro s m hs ht
    unfold withVersion initCore
    simp only [canBeCastToIntVersion, hs, Bool.false_eq_true, if_false]
    rw [if_neg ht]
    exact ⟨rfl, rfl⟩
  · intro m
    cases m <;> exact ⟨by decide, by decide⟩

/-- C6 counterexample: an unrecognized version string yields `version = None`
but does *not* force `micro = false`: an explicitly supplied `micro=True`
survives, contradicting "forces micro=false in the resulting options". -/
theorem version_fallback_keeps_micro :
    (qrCodeOptionsInit [(ps "version", PyVal.vStr (ps "zz")), (ps "micro", PyVal.vBool true)]).map
        (fun o => o.version) = .ok .none
    ∧ (qrCodeOptionsInit [(ps "version", PyVal.vStr (ps "zz")), (ps "micro", PyVal.vBool true)]).map
        (fun o => o.micro) = .ok true := by decide

/-- Witness for `version_coercion_amended` at concrete inputs. -/
theorem version_coercion_amended_witness :
    (withVersion (VersionVal.i 5) true).version = .i 5
    ∧ (withVersion (VersionVal.s (ps "M2")) false).micro = true
    ∧ (withVersion (VersionVal.i 99) true).version = .none
    ∧ (withVersion (VersionVal.s (ps "zz")) true).micro = true :=
  ⟨((version_coercion_amended.1 5 true (by norm_num) (by norm_num)).1),
   ((version_coercion_amended.2.2.1 (ps "M2") (by decide) false).2),
   ((version_coercion_amended.2.2.2.1 99 true (Or.inr (by norm_num))).1),
   ((version_coercion_amended.2.2.2.2.1 (ps "zz") true (by decide) (by decide)).2)⟩

/-! ## C7: Wi-Fi nopass password handling -/

/-- C7: contrary to the `WifiConfig` docstring ("password: ... ignored if
authentication is 'nopass'"), `make_qr_code_data` emits the `P:` section for a
nopass record whenever a password is supplied — only the `T:` section is
guarded by the authentication value. -/
theorem wifi_nopass_emits_password :
    wifiMakeQrCodeData { ssid := ps "my-wifi", authentication := 0, password := ps "wifi-password" }
      = ps "WIFI:S:my-wifi;P:wifi-password;;"
    ∧ containsSeq (ps "P:")
        (wifiMakeQrCodeData { ssid := ps "my-wifi", authentication := 0, password := ps "wifi-password" })
      = true := by decide

/-! ## C9: MeCard escaping -/

/-- The per-character effect the sequential replaces amount to: a special
character becomes backslash + itself, anything else is untouched. -/
def mecardEscapeTarget (c : Char) : PyStr :=
  if c ∈ mecardSpecialChars then ['\\', c] else [c]

lemma pyReplace1_nil (c : Char) (r : PyStr) : pyReplace1 c r [] = [] := rfl

lemma pyReplace1_append (c : Char) (r : PyStr) (a b : PyStr) :
    pyReplace1 c r (a ++ b) = pyReplace1 c r a ++ pyReplace1 c r b := by
  simp [pyReplace1]

lemma escape_chain_single (x : Char) :
    pyReplace1 ':' ['\\', ':'] (pyReplace1 ',' ['\\', ','] (pyReplace1 ';' ['\\', ';']
      (pyReplace1 '"' ['\\', '"'] (pyReplace1 '\\' ['\\', '\\'] [x]))))
      = mecardEscapeTarget x := by
  by_cases h1 : x = '\\'
  · subst h1; decide
  by_cases h2 : x = '"'
  · subst h2; decide
  by_cases h3 : x = ';'
  · subst h3; decide
  by_cases h4 : x = ','
  · subst h4; decide
  by_cases h5 : x = ':'
  · subst h5; decide
  simp [pyReplace1, mecardEscapeTarget, mecardSpecialChars, h1, h2, h3, h4, h5]

lemma escape_chain_eq (l : PyStr) :
    pyReplace1 ':' ['\\', ':'] (pyReplace1 ',' ['\\', ','] (pyReplace1 ';' ['\\', ';']
      (pyReplace1 '"' ['\\', '"'] (pyReplace1 '\\' ['\\', '\\'] l))))
      = l.flatMap mecardEscapeTarget := by
  induction l with
  | nil => rfl
  | cons x xs ih =>
    have hsplit : (x :: xs) = [x] ++ xs := rfl
    rw [hsplit]
    simp only [pyReplace1_append]
    rw [escape_chain_single x, ih]
    simp

/-- C9: `_escape_mecard_special_chars` replaces backslash, double-quote,
semicolon, comma and colon — in that order, backslash first — by their
backslash-prefixed forms; since each step only touches its own character, the
net effect is the order-correct single pass `mecardEscapeTarget`, and the
backslashes introduced for the other four characters are never re-escaped.
At the spec's example input `a;b,c:d\e` it yields `a\;b\,c\:d\\e`. -/
theorem escape_special_order_correct :
    (∀ l : PyStr, escapeMecardSpecialChars l = l.flatMap mecardEscapeTarget)
    ∧ escapeMecardSpecialChars (ps "a;b,c:d\\e") = ps "a\\;b\\,c\\:d\\\\e" := by
  constructor
  · intro l
    unfold escapeMecardSpecialChars
    by_cases hl : l = []
    · subst hl; simp
    · rw [if_neg hl]
      simp only [mecardSpecialChars, List.foldl]
      exact escape_chain_eq l
  · decide

/-! ## C10: geolocation altitude omission -/

/-- C10: with a falsy altitude (`None` or 0) both `make_geolocation_text` and
`make_google_maps_text` render exactly the two-component form, and the
altitude component is appended only for a non-zero altitude. -/
theorem geolocation_zero_altitude_omitted :
    (∀ c : Coordinates, c.altitude = Option.none ∨ c.altitude = some 0 →
      makeGeolocationText c
          = ps "geo:" ++ coordFloatToStr c.latitude ++ ',' :: coordFloatToStr c.longitude
        ∧ makeGoogleMapsText c
          = ps "https://maps.google.com/local?q="
              ++ coordFloatToStr c.latitude ++ ',' :: coordFloatToStr c.longitude)
    ∧ (∀ (c : Coordinates) (a : ℚ), c.altitude = some a → a ≠ 0 →
      makeGeolocationText c
          = (ps "geo:" ++ coordFloatToStr c.latitude ++ ',' :: coordFloatToStr c.longitude)
              ++ ',' :: coordFloatToStr a
        ∧ makeGoogleMapsText c
          = (ps "https://maps.google.com/local?q="
              ++ coordFloatToStr c.latitude ++ ',' :: coordFloatToStr c.longitude)
              ++ ',' :: coordFloatToStr a) := by
  constructor
  · intro c h
    rcases h with h | h <;> constructor <;> simp [makeGeolocationText, makeGoogleMapsText, h]
  · intro c a h ha
    constructor <;> simp [makeGeolocationText, makeGoogleMapsText, h, ha]

/-- Witness for `geolocation_zero_altitude_omitted` at concrete coordinates. -/
theorem geolocation_zero_altitude_omitted_witness :
    (makeGeolocationText { latitude := 1, longitude := 2, altitude := some 0 }
        = ps "geo:" ++ coordFloatToStr 1 ++ ',' :: coordFloatToStr 2)
    ∧ makeGeolocationText { latitude := 1, longitude := 2, altitude := some 7 }
        = (ps "geo:" ++ coordFloatToStr 1 ++ ',' :: coordFloatToStr 2) ++ ',' :: coordFloatToStr 7 :=
  ⟨(geolocation_zero_altitude_omitted.1 { latitude := 1, longitude := 2, altitude := some 0 }
      (Or.inr rfl)).1,
   (geolocation_zero_altitude_omitted.2 { latitude := 1, longitude := 2, altitude := some 7 } 7
      rfl (by norm_num)).1⟩

/-! ## C8: RFC 5545 line folding -/

lemma charBytes_pos (c : Char) : 1 ≤ charBytes c := by
  unfold charBytes
  split_ifs <;> norm_num

lemma charBytes_le_four (c : Char) : charBytes c ≤ 4 := by
  unfold charBytes
  split_ifs <;> norm_num

lemma utf8Len_cons (c : Char) (l : PyStr) : utf8Len (c :: l) = charBytes c + utf8Len l := by
  simp [utf8Len]

lemma utf8Len_of_ascii : ∀ l : PyStr, isAsciiLine l = true → utf8Len l = l.length := by
  intro l h
  induction l with
  | nil => rfl
  | cons c cs ih =>
    simp only [isAsciiLine, List.all_cons, Bool.and_eq_true, decide_eq_true_eq] at h
    have hb : charBytes c = 1 := by
      unfold charBytes
      rw [if_pos h.1]
    rw [utf8Len_cons, hb, ih (by simp [isAsciiLine, h.2])]
    simp [Nat.add_comm]

lemma chunksAsciiAux_flatten : ∀ fuel (l : PyStr), l.length ≤ fuel →
    (chunksAsciiAux fuel l).flatten = l := by
  intro fuel
  induction fuel with
  | zero =>
    intro l h
    cases l with
    | nil => rfl
    | cons x xs => simp at h
  | succ fuel ih =>
    intro l h
    cases l with
    | nil => rfl
    | cons x xs =>
      simp only [chunksAsciiAux, List.flatten_cons]
      rw [ih ((x :: xs).drop 74) (by simp [List.length_drop] at *; omega)]
      exact List.take_append_drop 74 (x :: xs)

lemma chunksAsciiAux_mem : ∀ fuel (l s : PyStr), s ∈ chunksAsciiAux fuel l →
    s.length ≤ 74 ∧ ∀ c ∈ s, c ∈ l := by
  intro fuel
  induction fuel with
  | zero =>
    intro l s hs
    cases l with
    | nil => simp [chunksAsciiAux] at hs
    | cons x xs => simp [chunksAsciiAux] at hs
  | succ fuel ih =>
    intro l s hs
    cases l with
    | nil => simp [chunksAsciiAux] at hs
    | cons x xs =>
      simp only [chunksAsciiAux, List.mem_cons] at hs
      rcases hs with rfl | hs
      · refine ⟨by simp [List.length_take], ?_⟩
        intro c hc
        exact List.take_subset _ _ hc
      · obtain ⟨h1, h2⟩ := ih _ _ hs
        exact ⟨h1, fun c hc => List.drop_subset _ _ (h2 c hc)⟩

lemma chunksAscii_ne_nil {l : PyStr} (h : l ≠ []) : chunksAscii l ≠ [] := by
  cases l with
  | nil => exact absurd rfl h
  | cons x xs => simp [chunksAscii, chunksAsciiAux]

lemma foldUtf8_spec : ∀ (l : PyStr) (count : Nat), count ≤ 74 →
    ∃ (s0 : PyStr) (rest : List PyStr),
      foldUtf8 l count = s0 ++ (rest.map fun t => foldSep ++ t).flatten
      ∧ s0 ++ rest.flatten = l
      ∧ count + utf8Len s0 ≤ 74
      ∧ ∀ s ∈ rest, utf8Len s ≤ 74 := by
  intro l
  induction l with
  | nil =>
    intro count hc
    exact ⟨[], [], rfl, rfl, by simpa [utf8Len] using hc, by simp⟩
  | cons c cs ih =>
    intro count hc
    by_cases htrig : count + charBytes c ≥ 75
    · obtain ⟨s0, rest, h1, h2, h3, h4⟩ :=
        ih (charBytes c) (le_trans (charBytes_le_four c) (by norm_num))
    
      refine ⟨[], (c :: s0) :: rest, ?_, ?_, ?_, ?_⟩
      · simp only [foldUtf8]
        rw [if_pos htrig, h1]
        simp [List.append_assoc]
      · simp only [List.nil_append, List.flatten_cons]
        rw [List.cons_append, h2]
      · simpa [utf8Len] using hc
      · intro s hs
        rcases List.mem_cons.1 hs with rfl | hs
        · rw [utf8Len_cons]; omega
        · exact h4 s hs
    · obtain ⟨s0, rest, h1, h2, h3, h4⟩ := ih (count + charBytes c) (by omega)
      refine ⟨c :: s0, rest, ?_, ?_, ?_, ?_⟩
      · simp only [foldUtf8]
        rw [if_neg htrig, h1]
        simp
      · rw [List.cons_append, h2]
      · rw [utf8Len_cons]; omega
      · exact h4

lemma pyReplace1_not_mem {c : Char} {repl : PyStr} (h : c ∉ repl) (l : PyStr) :
    c ∉ pyReplace1 c repl l := by
  intro hm
  rw [pyReplace1, List.mem_flatMap] at hm
  obtain ⟨a, _, hmem⟩ := hm
  by_cases hac : a = c
  · rw [if_pos hac] at hmem
    exact h hmem
  · rw [if_neg hac] at hmem
    simp only [List.mem_singleton] at hmem
    exact hac hmem.symm

lemma newline_not_mem_icalEscapeChar (t : PyStr) : '\n' ∉ icalEscapeChar t := by
  unfold icalEscapeChar
  exact pyReplace1_not_mem (by decide) _

lemma splitOnChar_of_not_mem {c : Char} {l : PyStr} (h : c ∉ l) : splitOnChar c l = [l] := by
  unfold splitOnChar
  rw [splitOnCharAux_not_mem c l [] h]
  simp

/-- C8: the folded DESCRIPTION property decomposes into segments joined by the
CRLF+space fold marker: every segment is at most 74 octets (so the head
physical line is ≤ 74 octets and each continuation line — one space plus a
segment — is ≤ 75 octets), the folds fall between characters (never inside a
multi-byte UTF-8 character: the decomposition is by whole `Char`s), and
concatenating the segments — i.e. deleting every fold marker — restores the
pre-folding text `"DESCRIPTION:" + escape_char(d)` exactly. -/
theorem vevent_description_folding (d : PyStr) :
    ∃ segs : List PyStr, segs ≠ []
      ∧ foldedDescriptionProperty d = joinSep foldSep segs
      ∧ segs.flatten = ps "DESCRIPTION:" ++ icalEscapeChar d
      ∧ (∀ s ∈ segs, utf8Len s ≤ 74)
      ∧ (∀ s ∈ segs, utf8Len (' ' :: s) ≤ 75) := by
  have hnl : '\n' ∉ ps "DESCRIPTION:" ++ icalEscapeChar d := by
    intro h
    rcases List.mem_append.1 h with h | h
    · exact absurd h (by decide)
    · exact newline_not_mem_icalEscapeChar d h
  have hne : ps "DESCRIPTION:" ++ icalEscapeChar d ≠ [] := by
    intro h
    rw [List.append_eq_nil] at h
    exact absurd h.1 (by decide)
  have hsplit : foldedDescriptionProperty d = foldOneLine (ps "DESCRIPTION:" ++ icalEscapeChar d) := by
    unfold foldedDescriptionProperty foldIcalendarLine
    rw [splitOnChar_of_not_mem hnl]
    simp
  rw [hsplit]
  unfold foldOneLine
  by_cases hasc : isAsciiLine (ps "DESCRIPTION:" ++ icalEscapeChar d) = true
  · rw [if_pos hasc]
    have h74 : ∀ s ∈ chunksAscii (ps "DESCRIPTION:" ++ icalEscapeChar d), utf8Len s ≤ 74 := by
      intro s hs
      obtain ⟨hlen, hsub⟩ := chunksAsciiAux_mem _ _ _ hs
      have hs_ascii : isAsciiLine s = true := by
        simp only [isAsciiLine, List.all_eq_true, decide_eq_true_eq] at hasc ⊢
        intro c hc
        exact hasc c (hsub c hc)
      rw [utf8Len_of_ascii s hs_ascii]
      exact hlen
    refine ⟨chunksAscii (ps "DESCRIPTION:" ++ icalEscapeChar d), chunksAscii_ne_nil hne, rfl,
      chunksAsciiAux_flatten _ _ le_rfl, h74, ?_⟩
    intro s hs
    rw [utf8Len_cons]
    have := h74 s hs
    have hsp : charBytes ' ' = 1 := by decide
    omega
  · rw [if_neg hasc]
    obtain ⟨s0, rest, h1, h2, h3, h4⟩ :=
      foldUtf8_spec (ps "DESCRIPTION:" ++ icalEscapeChar d) 0 (by norm_num)
    have h74 : ∀ s ∈ s0 :: rest, utf8Len s ≤ 74 := by
      intro s hs
      rcases List.mem_cons.1 hs with rfl | hs
      · omega
      · exact h4 s hs
    refine ⟨s0 :: rest, by simp, ?_, ?_, h74, ?_⟩
    · rw [h1]; rfl
    · rw [List.flatten_cons]; exact h2
    · intro s hs
      rw [utf8Len_cons]
      have := h74 s hs
      have hsp : charBytes ' ' = 1 := by decide
      omega

/-- Every option set produced by `QRCodeOptions(**fields)` satisfies the
`TokenFieldsWF` hypothesis of the token theorems. -/
lemma tokenFieldsWF_init {fields : List (PyStr × PyVal)} {o : QRCodeOptions}
    (h : qrCodeOptionsInit fields = .ok o) : TokenFieldsWF o := by
  unfold qrCodeOptionsInit at h
  cases hv : validateArgs fields with
  | error e => rw [hv] at h; exact absurd h (by simp [Except.map])
  | ok a =>
    rw [hv] at h
    simp only [Except.map, Except.ok.injEq] at h
    rw [← h]
    exact tokenFieldsWF_initCore a

-- The test-suite scenario: a token issued for size=10 does not serve size=8.
example : checkUrlSignatureToken macX (withSize (SizeVal.i 8))
    (getQrUrlProtectionSignedToken macX (ps "RND") (withSize (SizeVal.i 10)))
    = .error (.permissionDenied (ps "Request query does not match protection token.")) := by decide
